import Mathlib

/-!
Verification of the miner discovery and query layer of Axe-OS-Multitool
(`src/src-tauri/src/lib.rs`).

The HTTP world is modelled as an oracle `Net : Request → FetchResult`: each
request either fails at the transport level (connection refused, timeout, DNS
error — carrying the error's rendered text) or yields a `Response` holding the
HTTP status, the raw body text, and the result of parsing the body as JSON.
The Tauri commands are embedded as pure functions of the oracle.  `scan_network`
additionally returns the list of addresses it launched a discovery probe
against, making the "how many probes were issued" claims statable.

Rust string primitives used by the source (`str::split('.')` and
`u8::from_str`) are embedded as structurally recursive functions on character
lists with exactly Rust's semantics (empty pieces kept by `split`; `from_str`
accepts an optional leading plus sign followed by one or more ASCII digits,
valued at most 255).
-/

namespace AxeOS

/-- JSON values (`serde_json::Value`). -/
inductive Json where
  | null
  | bool (b : Bool)
  | num (n : Int)
  | str (s : String)
  | arr (elems : List Json)
  | obj (fields : List (String × Json))

/-- Field lookup inside a JSON object: first binding of the key wins
(object keys are unique in `serde_json`'s map). -/
def lookup_field (key : String) : List (String × Json) → Option Json
  | [] => none
  | (k, v) :: rest => if k = key then some v else lookup_field key rest

/-- `serde_json::Value::get(key)`: `Some` only on objects holding the key. -/
def Json.get (j : Json) (key : String) : Option Json :=
  match j with
  | .obj fields => lookup_field key fields
  | _ => none

/-- `serde_json::Value::as_str()`: `Some` exactly on JSON strings. -/
def Json.as_str : Json → Option String
  | .str s => some s
  | _ => none

/-- An HTTP status: numeric code plus canonical reason phrase. -/
structure Status where
  code : Nat
  reason : String

/-- `http::StatusCode::is_success()`: code in the range 200..=299. -/
def Status.is_success (s : Status) : Bool :=
  decide (200 ≤ s.code) && decide (s.code < 300)

/-- `Display` for `http::StatusCode`: the numeric code, a space, and the
canonical reason phrase. -/
def Status.display (s : Status) : String :=
  toString s.code ++ " " ++ s.reason

/-- An HTTP response: status, body text (`Response::text()`), and the result
of parsing the body as JSON (`Response::json::<serde_json::Value>()`). -/
structure Response where
  status : Status
  body : String
  json : Option Json

/-- A request issued by the client: method, URL, and (for PATCH) JSON payload. -/
inductive Request where
  | get (url : String)
  | post (url : String)
  | patch (url : String) (payload : Json)

/-- Outcome of sending one request: transport-level failure (carrying the
error's rendered text, `e.to_string()`) or a response. -/
inductive FetchResult where
  | failed (err : String)
  | ok (response : Response)

/-- The network oracle: what each request comes back with. -/
def Net := Request → FetchResult

/-- URL built for a probe: `format!("http://{}{}", ip, path)`. -/
def probe_url (ip path : String) : String :=
  "http://" ++ ip ++ path

/-- The three candidate paths of `get_miner_data` (source lines 35-39). -/
def fetch_paths : List String :=
  ["/api/system/info", "/api/system", "/api/swarm/info"]

/-- The two candidate paths of `check_miner_at_ip` (source lines 247-250). -/
def scan_paths : List String :=
  ["/api/system/info", "/api/system"]

/-- The `for path in api_paths` loop of `get_miner_data` (source lines 41-54):
transport failure continues, non-success status continues, success status with
unparseable body continues, success status with JSON body returns it. -/
def get_miner_data_loop (net : Net) (ip : String) : List String → Option Json
  | [] => none
  | path :: rest =>
    match net (.get (probe_url ip path)) with
    | .ok response =>
      if response.status.is_success then
        match response.json with
        | some json => some json
        | none => get_miner_data_loop net ip rest
      else
        get_miner_data_loop net ip rest
    | .failed _ => get_miner_data_loop net ip rest

/-- `get_miner_data` (source lines 29-57): try the three fetch paths in
order; on exhaustion fail with the connection error naming the address. -/
def get_miner_data (net : Net) (ip : String) : Except String Json :=
  match get_miner_data_loop net ip fetch_paths with
  | some json => .ok json
  | none => .error ("Failed to connect to miner at " ++ ip)

/-- `DiscoveredMiner` (source lines 19-25).  The spec calls `ip` the
`address` and `version` the `firmwareVersion`. -/
structure DiscoveredMiner where
  ip : String
  hostname : Option String
  version : Option String
  model : Option String

/-- The field extraction of `check_miner_at_ip` (source lines 259-275):
`hostname` from `hostname`, `version` from `version` falling back to
`axeOSVersion` when the key is absent, `model` from `ASICModel`; every field
goes through `as_str`, so a missing key or a non-string value gives `none`. -/
def normalize_miner (ip : String) (json : Json) : DiscoveredMiner :=
  { ip := ip
    hostname := (json.get "hostname").bind Json.as_str
    version := ((json.get "version").orElse (fun _ => json.get "axeOSVersion")).bind Json.as_str
    model := (json.get "ASICModel").bind Json.as_str }

/-- The `for path in &api_paths` loop of `check_miner_at_ip` (source lines
252-281): same miss handling as `get_miner_data_loop`, but the first hit is
normalized into a `DiscoveredMiner` carrying the probed address. -/
def check_miner_loop (net : Net) (ip : String) : List String → Option DiscoveredMiner
  | [] => none
  | path :: rest =>
    match net (.get (probe_url ip path)) with
    | .ok response =>
      if response.status.is_success then
        match response.json with
        | some json => some (normalize_miner ip json)
        | none => check_miner_loop net ip rest
      else
        check_miner_loop net ip rest
    | .failed _ => check_miner_loop net ip rest

/-- `check_miner_at_ip` (source lines 246-283): probe the two scan paths in
order; `none` on exhaustion. -/
def check_miner_at_ip (net : Net) (ip : String) : Option DiscoveredMiner :=
  check_miner_loop net ip scan_paths

/-- `restart_miner` (source lines 61-83): POST to the fixed restart path;
success status with JSON body returns the body, success status with
unparseable body returns `{"success": true}`, non-success status fails with
the status text, transport failure fails with the transport error text. -/
def restart_miner (net : Net) (ip : String) : Except String Json :=
  match net (.post (probe_url ip "/api/system/restart")) with
  | .failed e => .error e
  | .ok response =>
    if response.status.is_success then
      match response.json with
      | some json => .ok json
      | none => .ok (Json.obj [("success", Json.bool true)])
    else
      .error ("Miner restart failed with status: " ++ response.status.display)

/-- `MinerSettingsUpdate` (source lines 12-17); `core_voltage` serializes
as `coreVoltage`. -/
structure MinerSettingsUpdate where
  frequency : Nat
  core_voltage : Nat

/-- Serde serialization of `MinerSettingsUpdate`. -/
def MinerSettingsUpdate.toJson (s : MinerSettingsUpdate) : Json :=
  Json.obj [("frequency", Json.num s.frequency), ("coreVoltage", Json.num s.core_voltage)]

/-- `update_miner_settings` (source lines 213-243): PATCH the payload to
`/api/system`; success handling as for restart; non-success status fails with
an error carrying the displayed status and the body text
(`response.text()`, defaulting to the empty string). -/
def update_miner_settings (net : Net) (ip : String) (frequency core_voltage : Nat) :
    Except String Json :=
  let settings : MinerSettingsUpdate := { frequency := frequency, core_voltage := core_voltage }
  match net (.patch (probe_url ip "/api/system") settings.toJson) with
  | .failed e => .error e
  | .ok response =>
    if response.status.is_success then
      match response.json with
      | some json => .ok json
      | none => .ok (Json.obj [("success", Json.bool true)])
    else
      .error ("Failed to update settings (" ++ response.status.display ++ "): " ++ response.body)

/-- Rust `str::split(sep)` on the character list: empty pieces are kept, the
empty string yields one empty piece. -/
def split_char (sep : Char) : List Char → List (List Char)
  | [] => [[]]
  | c :: rest =>
    let r := split_char sep rest
    if c = sep then [] :: r
    else
      match r with
      | [] => [[c]]
      | g :: gs => (c :: g) :: gs

/-- Rust `u8::from_str`: an optional leading plus sign, then one or more
ASCII digits, and a value of at most 255; anything else is a parse error. -/
def parse_u8 (cs : List Char) : Option Nat :=
  let t := match cs with
    | '+' :: rest => rest
    | _ => cs
  if t = [] then none
  else if t.all Char.isDigit then
    let n := t.foldl (fun acc c => 10 * acc + (c.toNat - 48)) 0
    if n ≤ 255 then some n else none
  else none

/-- The subnet pieces `subnet.split('.')` of `scan_network`. -/
def subnet_parts (subnet : String) : List (List Char) :=
  split_char '.' subnet.data

/-- The validation of `scan_network` (source lines 289-299) as a predicate:
exactly three dot-separated pieces, each parsing as a `u8`. -/
def valid_subnet (subnet : String) : Bool :=
  (subnet_parts subnet).length == 3 &&
    (subnet_parts subnet).all (fun part => (parse_u8 part).isSome)

/-- The last octets scanned: Rust `start..=end` (empty when `start > end_`). -/
def octet_range (start end_ : Nat) : List Nat :=
  List.range' start (end_ + 1 - start)

/-- Address built for octet `i`: `format!("{}.{}", subnet, i)`. -/
def mk_ip (subnet : String) (i : Nat) : String :=
  subnet ++ "." ++ toString i

/-- `scan_network` (source lines 287-326).  First component: the command's
result.  Second component: the addresses a discovery probe
(`check_miner_at_ip`) was launched against, in launch order — empty when
validation rejects the subnet before any network I/O.  `join_all` preserves
task order, and `.flatten()` on the option results is `filterMap id`. -/
def scan_network (net : Net) (subnet : String) (start end_ : Nat) :
    Except String (List DiscoveredMiner) × List String :=
  let parts := subnet_parts subnet
  if parts.length ≠ 3 then
    (.error "Invalid subnet format. Expected format: 192.168.1", [])
  else
    match parts.find? (fun part => (parse_u8 part).isNone) with
    | some part => (.error ("Invalid subnet octet: " ++ part.asString), [])
    | none =>
      let ips := (octet_range start end_).map (mk_ip subnet)
      let results := ips.map (fun ip => check_miner_at_ip net ip)
      (.ok (results.filterMap id), ips)

/-- One path's probe outcome, viewed declaratively: the parsed JSON body when
the response came back with a success status and a parseable body, `none` on
a transport failure, a non-success status, or an unparseable body. -/
def path_hit (net : Net) (ip path : String) : Option Json :=
  match net (.get (probe_url ip path)) with
  | .ok response => if response.status.is_success then response.json else none
  | .failed _ => none

/-- `needle` occurs contiguously inside `hay`. -/
def contains_str (hay needle : String) : Prop :=
  ∃ p q, hay = p ++ needle ++ q

/-- A device status payload with no `version` key: hostname `miner1`,
`axeOSVersion` `2.1`, `ASICModel` `BM1397`. -/
def sample_json : Json :=
  Json.obj [("hostname", Json.str "miner1"), ("axeOSVersion", Json.str "2.1"),
            ("ASICModel", Json.str "BM1397")]

/-- A network holding one simulated device at `10.0.0.2` that answers GET
requests only on the path `/api/system` — the second candidate path of both
probe variants — with `sample_json`; everything else is refused. -/
def net_second : Net := fun r =>
  match r with
  | .get url =>
    if url = "http://10.0.0.2/api/system" then
      .ok { status := { code := 200, reason := "OK" }, body := "{}", json := some sample_json }
    else .failed "connection refused"
  | _ => .failed "connection refused"

/-- A network on which every request fails at the transport level. -/
def net_down : Net := fun _ => .failed "connection refused"

/-- A network holding a simulated device at `10.0.0.3` that answers the
restart POST with a success status and an empty, unparseable body. -/
def net_restart_empty : Net := fun r =>
  match r with
  | .post url =>
    if url = "http://10.0.0.3/api/system/restart" then
      .ok { status := { code := 200, reason := "OK" }, body := "", json := none }
    else .failed "connection refused"
  | _ => .failed "connection refused"

/-- The failing settings response: status 500, body `bad core voltage`. -/
def bad_response : Response :=
  { status := { code := 500, reason := "Internal Server Error" },
    body := "bad core voltage", json := none }

/-- A network holding a simulated device at `10.0.0.4` that rejects every
settings PATCH with `bad_response`. -/
def net_bad_settings : Net := fun r =>
  match r with
  | .patch url _ =>
    if url = "http://10.0.0.4/api/system" then .ok bad_response
    else .failed "connection refused"
  | _ => .failed "connection refused"

/-- The raw-fetch loop returns the first declarative path hit. -/
theorem get_miner_data_loop_eq (net : Net) (ip : String) (paths : List String) :
    get_miner_data_loop net ip paths = paths.findSome? (path_hit net ip) := by
  induction paths with
  | nil => rfl
  | cons path rest ih =>
    rw [List.findSome?_cons]
    show (match net (.get (probe_url ip path)) with
      | .ok response =>
        if response.status.is_success then
          match response.json with
          | some json => some json
          | none => get_miner_data_loop net ip rest
        else get_miner_data_loop net ip rest
      | .failed _ => get_miner_data_loop net ip rest) = _
    unfold path_hit
    cases net (.get (probe_url ip path)) with
    | failed e => exact ih
    | ok response =>
      by_cases hs : response.status.is_success
      · simp only [hs, if_true]
        cases response.json with
        | none => exact ih
        | some json => rfl
      · simp only [hs, if_false, Bool.false_eq_true]
        exact ih

/-- The discovery loop returns the first declarative path hit, normalized. -/
theorem check_miner_loop_eq (net : Net) (ip : String) (paths : List String) :
    check_miner_loop net ip paths = (paths.findSome? (path_hit net ip)).map (normalize_miner ip) := by
  induction paths with
  | nil => rfl
  | cons path rest ih =>
    rw [List.findSome?_cons]
    show (match net (.get (probe_url ip path)) with
      | .ok response =>
        if response.status.is_success then
          match response.json with
          | some json => some (normalize_miner ip json)
          | none => check_miner_loop net ip rest
        else check_miner_loop net ip rest
      | .failed _ => check_miner_loop net ip rest) = _
    unfold path_hit
    cases net (.get (probe_url ip path)) with
    | failed e => exact ih
    | ok response =>
      by_cases hs : response.status.is_success
      · simp only [hs, if_true]
        cases response.json with
        | none => exact ih
        | some json => rfl
      · simp only [hs, if_false, Bool.false_eq_true]
        exact ih

/-- C1: both prober variants return the result of the first path, in list
order, whose response has a success status and a JSON-parseable body
(`path_hit`); success-status responses with unparseable bodies and transport
failures make probing continue, so a device answering only on the second
candidate path still yields a result. -/
theorem prober_honors_path_order (net : Net) (ip : String) (paths : List String) (j : Json) :
    (get_miner_data_loop net ip paths = paths.findSome? (path_hit net ip)) ∧
    (check_miner_loop net ip paths = (paths.findSome? (path_hit net ip)).map (normalize_miner ip)) ∧
    (get_miner_data net ip = .ok j ↔ fetch_paths.findSome? (path_hit net ip) = some j) ∧
    (check_miner_at_ip net ip = (scan_paths.findSome? (path_hit net ip)).map (normalize_miner ip)) ∧
    (path_hit net ip "/api/system/info" = none → path_hit net ip "/api/system" = some j →
      check_miner_at_ip net ip = some (normalize_miner ip j) ∧ get_miner_data net ip = .ok j) := by
  refine ⟨get_miner_data_loop_eq net ip paths, check_miner_loop_eq net ip paths, ?_, ?_, ?_⟩
  · unfold get_miner_data
    rw [get_miner_data_loop_eq]
    cases h : fetch_paths.findSome? (path_hit net ip) with
    | none => simp
    | some json => simp
  · exact check_miner_loop_eq net ip scan_paths
  · intro h1 h2
    constructor
    · unfold check_miner_at_ip
      rw [check_miner_loop_eq]
      show ((["/api/system/info", "/api/system"] : List String).findSome?
        (path_hit net ip)).map (normalize_miner ip) = _
      rw [List.findSome?_cons, h1, List.findSome?_cons, h2]
      rfl
    · unfold get_miner_data
      rw [get_miner_data_loop_eq]
      show (match (["/api/system/info", "/api/system", "/api/swarm/info"] : List String).findSome?
        (path_hit net ip) with
        | some json => Except.ok json
        | none => Except.error ("Failed to connect to miner at " ++ ip)) = _
      rw [List.findSome?_cons, h1, List.findSome?_cons, h2]

/-- Witness for C1: on `net_second` the first candidate path misses, the
second hits `sample_json`, and both variants return the second path's
result. -/
theorem prober_honors_path_order_witness :
    path_hit net_second "10.0.0.2" "/api/system/info" = none ∧
    path_hit net_second "10.0.0.2" "/api/system" = some sample_json ∧
    check_miner_at_ip net_second "10.0.0.2" = some (normalize_miner "10.0.0.2" sample_json) ∧
    get_miner_data net_second "10.0.0.2" = .ok sample_json :=
  ⟨rfl, rfl,
    ((prober_honors_path_order net_second "10.0.0.2" [] sample_json).2.2.2.2 rfl rfl).1,
    ((prober_honors_path_order net_second "10.0.0.2" [] sample_json).2.2.2.2 rfl rfl).2⟩

/-- C6: `get_miner_data` fails — always with the connection-exhausted message
carrying the probed address — exactly when every path in its three-path list
missed; under the same exhaustion `check_miner_at_ip` returns `none` rather
than an error (its two paths are among the three). -/
theorem exhaustion_outcomes (net : Net) (ip : String) :
    (get_miner_data net ip = .error ("Failed to connect to miner at " ++ ip) ↔
      ∀ path ∈ fetch_paths, path_hit net ip path = none) ∧
    (∀ e, get_miner_data net ip = .error e → e = "Failed to connect to miner at " ++ ip) ∧
    (check_miner_at_ip net ip = none ↔ ∀ path ∈ scan_paths, path_hit net ip path = none) ∧
    ((∀ path ∈ fetch_paths, path_hit net ip path = none) → check_miner_at_ip net ip = none) := by
  have hget : ∀ e, get_miner_data net ip = .error e →
      (∀ path ∈ fetch_paths, path_hit net ip path = none) ∧
      e = "Failed to connect to miner at " ++ ip := by
    intro e he
    unfold get_miner_data at he
    rw [get_miner_data_loop_eq] at he
    cases h : fetch_paths.findSome? (path_hit net ip) with
    | some json => rw [h] at he; exact absurd he (by simp)
    | none =>
      rw [h] at he
      refine ⟨List.findSome?_eq_none_iff.mp h, ?_⟩
      exact (Except.error.injEq _ _).mp he.symm
  have hchk : check_miner_at_ip net ip = none ↔
      ∀ path ∈ scan_paths, path_hit net ip path = none := by
    unfold check_miner_at_ip
    rw [check_miner_loop_eq]
    constructor
    · intro h
      cases hf : scan_paths.findSome? (path_hit net ip) with
      | none => exact List.findSome?_eq_none_iff.mp hf
      | some json => rw [hf] at h; exact absurd h (by simp)
    · intro h
      rw [List.findSome?_eq_none_iff.mpr h]
      rfl
  refine ⟨?_, fun e he => (hget e he).2, hchk, ?_⟩
  · constructor
    · intro he
      exact (hget _ he).1
    · intro h
      unfold get_miner_data
      rw [get_miner_data_loop_eq, List.findSome?_eq_none_iff.mpr h]
  · intro h
    refine hchk.mpr (fun path hp => h path ?_)
    simp only [scan_paths, List.mem_cons, List.not_mem_nil, or_false] at hp
    simp only [fetch_paths, List.mem_cons]
    rcases hp with h1 | h2
    · exact Or.inl h1
    · exact Or.inr (Or.inl h2)

/-- Witness for C6: on a network where every request fails, `get_miner_data`
returns the exhaustion error and `check_miner_at_ip` returns `none`. -/
theorem exhaustion_outcomes_witness :
    get_miner_data net_down "10.0.0.9" = .error ("Failed to connect to miner at " ++ "10.0.0.9") ∧
    check_miner_at_ip net_down "10.0.0.9" = none :=
  ⟨(exhaustion_outcomes net_down "10.0.0.9").1.mpr (fun _ _ => rfl),
    (exhaustion_outcomes net_down "10.0.0.9").2.2.2 (fun _ _ => rfl)⟩

/-- C7: `restart_miner` returns the parsed body on a success status with
parseable body, the synthetic acknowledgment on a success status with
unparseable body, and fails with an error carrying the displayed HTTP status
on a non-success status or the transport error text on a transport failure. -/
theorem restart_outcomes (net : Net) (ip : String) :
    (∀ r j, net (.post (probe_url ip "/api/system/restart")) = .ok r →
      r.status.is_success = true → r.json = some j → restart_miner net ip = .ok j) ∧
    (∀ r, net (.post (probe_url ip "/api/system/restart")) = .ok r →
      r.status.is_success = true → r.json = none →
      restart_miner net ip = .ok (Json.obj [("success", Json.bool true)])) ∧
    (∀ r, net (.post (probe_url ip "/api/system/restart")) = .ok r →
      r.status.is_success = false →
      restart_miner net ip = .error ("Miner restart failed with status: " ++ r.status.display) ∧
      contains_str ("Miner restart failed with status: " ++ r.status.display)
        (toString r.status.code)) ∧
    (∀ e, net (.post (probe_url ip "/api/system/restart")) = .failed e →
      restart_miner net ip = .error e) := by
  refine ⟨?_, ?_, ?_, ?_⟩
  · intro r j hr hs hj
    unfold restart_miner
    rw [hr]
    simp only [hs, if_true, hj]
  · intro r hr hs hj
    unfold restart_miner
    rw [hr]
    simp only [hs, if_true, hj]
  · intro r hr hs
    constructor
    · unfold restart_miner
      rw [hr]
      simp only [hs, Bool.false_eq_true, if_false]
    · exact ⟨"Miner restart failed with status: ", " " ++ r.status.reason,
        by simp only [Status.display, String.append_assoc]⟩
  · intro e he
    unfold restart_miner
    rw [he]

/-- Witness for C7: a device answering the restart POST with a success status
and an unparseable body yields the synthetic acknowledgment, not an error. -/
theorem restart_outcomes_witness :
    restart_miner net_restart_empty "10.0.0.3" = .ok (Json.obj [("success", Json.bool true)]) :=
  (restart_outcomes net_restart_empty "10.0.0.3").2.1
    { status := { code := 200, reason := "OK" }, body := "", json := none } rfl rfl rfl

/-- C8: on a non-success status, `update_miner_settings` fails with an error
whose text contains both the HTTP status code and the response body text. -/
theorem settings_update_failure (net : Net) (ip : String) (frequency core_voltage : Nat)
    (r : Response)
    (hr : net (.patch (probe_url ip "/api/system")
      (MinerSettingsUpdate.toJson { frequency := frequency, core_voltage := core_voltage })) = .ok r)
    (hs : r.status.is_success = false) :
    update_miner_settings net ip frequency core_voltage =
      .error ("Failed to update settings (" ++ r.status.display ++ "): " ++ r.body) ∧
    contains_str ("Failed to update settings (" ++ r.status.display ++ "): " ++ r.body)
      (toString r.status.code) ∧
    contains_str ("Failed to update settings (" ++ r.status.display ++ "): " ++ r.body) r.body := by
  refine ⟨?_, ?_, ?_⟩
  · unfold update_miner_settings
    dsimp only
    rw [hr]
    simp only [hs, Bool.false_eq_true, if_false]
  · exact ⟨"Failed to update settings (", " " ++ r.status.reason ++ "): " ++ r.body,
      by simp only [Status.display, String.append_assoc]⟩
  · refine ⟨"Failed to update settings (" ++ r.status.display ++ "): ", "", ?_⟩
    simp only [String.append_assoc, String.append_empty]

/-- Witness for C8: a device rejecting the settings PATCH with status 500 and
body `bad core voltage` produces an error containing `500` and that body. -/
theorem settings_update_failure_witness :
    update_miner_settings net_bad_settings "10.0.0.4" 500 1200 =
      .error ("Failed to update settings (" ++ bad_response.status.display ++ "): "
        ++ bad_response.body) ∧
    contains_str ("Failed to update settings (" ++ bad_response.status.display ++ "): "
      ++ bad_response.body) (toString bad_response.status.code) ∧
    contains_str ("Failed to update settings (" ++ bad_response.status.display ++ "): "
      ++ bad_response.body) bad_response.body :=
  settings_update_failure net_bad_settings "10.0.0.4" 500 1200 bad_response rfl rfl

/-- C5: the discovery variant builds its record with `version` (the spec's
`firmwareVersion`) taken from the `version` key, falling back to
`axeOSVersion` only when `version` is absent; every field is `none` whenever
its key is missing or its value is not a JSON string; and the claim's example
object with no `version` key yields `version = "2.1"`. -/
theorem discovered_miner_fields (net : Net) (ip : String) (json v : Json) :
    (check_miner_at_ip net ip = (scan_paths.findSome? (path_hit net ip)).map (normalize_miner ip)) ∧
    (json.get "version" = none →
      (normalize_miner ip json).version = (json.get "axeOSVersion").bind Json.as_str) ∧
    (json.get "version" = some v → (normalize_miner ip json).version = v.as_str) ∧
    (json.get "hostname" = none → (normalize_miner ip json).hostname = none) ∧
    (json.get "hostname" = some v → v.as_str = none → (normalize_miner ip json).hostname = none) ∧
    (json.get "version" = none → json.get "axeOSVersion" = none →
      (normalize_miner ip json).version = none) ∧
    (json.get "version" = some v → v.as_str = none → (normalize_miner ip json).version = none) ∧
    (json.get "ASICModel" = none → (normalize_miner ip json).model = none) ∧
    (json.get "ASICModel" = some v → v.as_str = none → (normalize_miner ip json).model = none) ∧
    (normalize_miner ip sample_json =
      { ip := ip, hostname := some "miner1", version := some "2.1", model := some "BM1397" }) := by
  refine ⟨check_miner_loop_eq net ip scan_paths, ?_, ?_, ?_, ?_, ?_, ?_, ?_, ?_, rfl⟩
  · intro h
    simp only [normalize_miner, h]
    rfl
  · intro h
    simp only [normalize_miner, h]
    rfl
  · intro h
    simp only [normalize_miner, h, Option.none_bind]
  · intro h hv
    simp only [normalize_miner, h, Option.some_bind, hv]
  · intro h h2
    simp only [normalize_miner, h, h2]
    rfl
  · intro h hv
    simp only [normalize_miner, h]
    exact hv
  · intro h
    simp only [normalize_miner, h, Option.none_bind]
  · intro h hv
    simp only [normalize_miner, h, Option.some_bind, hv]

/-- Witness for C5: the claim's example object (hostname `miner1`,
`axeOSVersion` `2.1`, `ASICModel` `BM1397`, no `version` key) falls back to
`axeOSVersion`, and once a `version` key is present the fallback is unused. -/
theorem discovered_miner_fields_witness :
    sample_json.get "version" = none ∧
    (normalize_miner "10.0.0.2" sample_json).version =
      (sample_json.get "axeOSVersion").bind Json.as_str ∧
    (normalize_miner "10.0.0.2" sample_json).version = some "2.1" :=
  ⟨rfl,
    (discovered_miner_fields net_down "10.0.0.2" sample_json Json.null).2.1 rfl,
    congrArg DiscoveredMiner.version
      (discovered_miner_fields net_down "10.0.0.2" sample_json Json.null).2.2.2.2.2.2.2.2.2⟩

/-- On a valid subnet, `scan_network` probes exactly the generated address
list and collects the successful probes in launch order. -/
theorem scan_network_valid (net : Net) (subnet : String) (start end_ : Nat)
    (h : valid_subnet subnet = true) :
    scan_network net subnet start end_ =
      (.ok (((octet_range start end_).map (mk_ip subnet)).filterMap (check_miner_at_ip net)),
        (octet_range start end_).map (mk_ip subnet)) := by
  unfold valid_subnet at h
  rw [Bool.and_eq_true, beq_iff_eq, List.all_eq_true] at h
  obtain ⟨h3, hall⟩ := h
  have hfind : (subnet_parts subnet).find? (fun part => (parse_u8 part).isNone) = none := by
    rw [List.find?_eq_none]
    intro part hp hcon
    have hsome := hall part hp
    rw [Option.isNone_iff_eq_none] at hcon
    rw [hcon] at hsome
    simp at hsome
  unfold scan_network
  dsimp only
  rw [if_neg (by rw [h3]; exact fun hc => hc rfl), hfind]
  dsimp only
  rw [List.filterMap_map]
  rfl

set_option maxRecDepth 8000 in
/-- `u8`-sized octets survive a round trip through decimal rendering and
`parse_u8`. -/
theorem parse_u8_repr_roundtrip : ∀ i : Fin 256, parse_u8 (toString i.val).data = some i.val := by
  decide

/-- Generated addresses are distinct across distinct `u8` octets. -/
theorem mk_ip_injOn (subnet : String) (i j : Nat) (hi : i ≤ 255) (hj : j ≤ 255)
    (h : mk_ip subnet i = mk_ip subnet j) : i = j := by
  have hd : (toString i).data = (toString j).data := by
    have hdata := congrArg String.data h
    simp only [mk_ip, String.data_append] at hdata
    rw [List.append_assoc, List.append_assoc] at hdata
    exact List.append_cancel_left (List.append_cancel_left hdata)
  have h1 : parse_u8 (toString i).data = some i := parse_u8_repr_roundtrip ⟨i, by omega⟩
  have h2 : parse_u8 (toString j).data = some j := parse_u8_repr_roundtrip ⟨j, by omega⟩
  rw [hd, h2] at h1
  exact (Option.some_inj.mp h1).symm

/-- A discovered record carries exactly the address it was probed at. -/
theorem check_miner_ip_eq (net : Net) (ip : String) (m : DiscoveredMiner)
    (h : check_miner_at_ip net ip = some m) : m.ip = ip := by
  unfold check_miner_at_ip at h
  rw [check_miner_loop_eq] at h
  cases hf : scan_paths.findSome? (path_hit net ip) with
  | none => rw [hf] at h; exact absurd h (by simp)
  | some json =>
    rw [hf] at h
    have hn : normalize_miner ip json = m := by simpa using h
    rw [← hn]
    rfl

/-- The successful probes of an octet list come from a subsequence of the
octets, with each record carrying its generated address. -/
theorem scan_filterMap_sublist (net : Net) (subnet : String) (l : List Nat) :
    ∃ octs : List Nat, octs.Sublist l ∧
      ((l.map (mk_ip subnet)).filterMap (check_miner_at_ip net)).map DiscoveredMiner.ip =
        octs.map (mk_ip subnet) := by
  induction l with
  | nil => exact ⟨[], List.Sublist.slnil, rfl⟩
  | cons i rest ih =>
    obtain ⟨octs, hs, he⟩ := ih
    cases hc : check_miner_at_ip net (mk_ip subnet i) with
    | none =>
      refine ⟨octs, List.Sublist.cons i hs, ?_⟩
      simp only [List.map_cons, List.filterMap_cons, hc]
      exact he
    | some m =>
      refine ⟨i :: octs, List.Sublist.cons₂ i hs, ?_⟩
      simp only [List.map_cons, List.filterMap_cons, hc]
      rw [check_miner_ip_eq net (mk_ip subnet i) m hc, he]

/-- C2: on a valid subnet and an ordered `u8` range, the scan launches one
discovery probe per address of the range — the addresses `{subnet}.{i}` for
`i` from `start` to `end_` inclusive, `end_ - start + 1` of them, with no
address probed twice. -/
theorem scan_probe_per_address (net : Net) (subnet : String) (start end_ : Nat)
    (hv : valid_subnet subnet = true) (hle : start ≤ end_) (hend : end_ ≤ 255) :
    (scan_network net subnet start end_).2 = (octet_range start end_).map (mk_ip subnet) ∧
    (scan_network net subnet start end_).2.length = end_ - start + 1 ∧
    (∀ i, start ≤ i → i ≤ end_ → mk_ip subnet i ∈ (scan_network net subnet start end_).2) ∧
    (scan_network net subnet start end_).2.Nodup := by
  rw [scan_network_valid net subnet start end_ hv]
  dsimp only
  refine ⟨rfl, ?_, ?_, ?_⟩
  · simp only [List.length_map, octet_range, List.length_range']
    omega
  · intro i h1 h2
    exact List.mem_map_of_mem _ (List.mem_range'_1.mpr ⟨h1, by omega⟩)
  · refine List.Nodup.map_on ?_ (List.nodup_range' _ _)
    intro x hx y hy hxy
    have hx2 := List.mem_range'_1.mp hx
    have hy2 := List.mem_range'_1.mp hy
    exact mk_ip_injOn subnet x y (by omega) (by omega) hxy

/-- Witness for C2: scanning `192.168.1` from 10 to 12 probes three distinct
addresses. -/
theorem scan_probe_per_address_witness :
    valid_subnet "192.168.1" = true ∧
    (scan_network net_down "192.168.1" 10 12).2.length = 12 - 10 + 1 ∧
    (scan_network net_down "192.168.1" 10 12).2.Nodup :=
  ⟨by decide,
    (scan_probe_per_address net_down "192.168.1" 10 12 (by decide) (by decide) (by decide)).2.1,
    (scan_probe_per_address net_down "192.168.1" 10 12 (by decide) (by decide) (by decide)).2.2.2⟩

/-- C3: a malformed subnet makes `scan_network` fail before any probe is
launched: the probe list is empty and the result is an error — the message
naming the first offending octet when the piece count is three, and the
fixed format message when the piece count is wrong. -/
theorem scan_rejects_malformed (net : Net) (subnet : String) (start end_ : Nat)
    (hv : valid_subnet subnet = false) :
    (scan_network net subnet start end_).2 = [] ∧
    (∃ e, (scan_network net subnet start end_).1 = .error e) ∧
    (∀ part, (subnet_parts subnet).find? (fun q => (parse_u8 q).isNone) = some part →
      (subnet_parts subnet).length = 3 →
      (scan_network net subnet start end_).1 = .error ("Invalid subnet octet: " ++ part.asString)) ∧
    ((subnet_parts subnet).length ≠ 3 →
      (scan_network net subnet start end_).1 =
        .error "Invalid subnet format. Expected format: 192.168.1") := by
  unfold scan_network
  dsimp only
  by_cases h3 : (subnet_parts subnet).length = 3
  · have hex : ∃ part ∈ subnet_parts subnet, ((parse_u8 part).isNone : Bool) = true := by
      unfold valid_subnet at hv
      rw [Bool.and_eq_false_iff] at hv
      rcases hv with hv | hv
      · rw [beq_eq_false_iff_ne] at hv
        exact absurd h3 hv
      · rw [List.all_eq_false] at hv
        obtain ⟨part, hp, hnp⟩ := hv
        refine ⟨part, hp, ?_⟩
        cases hpz : parse_u8 part with
        | none => rfl
        | some n => rw [hpz] at hnp; simp at hnp
    have hif : ((subnet_parts subnet).find? (fun q => (parse_u8 q).isNone)).isSome = true :=
      List.find?_isSome.mpr hex
    obtain ⟨part, hfs⟩ := Option.isSome_iff_exists.mp hif
    rw [if_neg (by rw [h3]; exact fun hc => hc rfl), hfs]
    refine ⟨rfl, ⟨_, rfl⟩, ?_, fun hc => absurd h3 hc⟩
    intro part2 hfind2 _
    cases Option.some_inj.mp hfind2
    rfl
  · rw [if_pos h3]
    exact ⟨rfl, ⟨_, rfl⟩, fun part _ hlen => absurd hlen h3, fun _ => rfl⟩

/-- Witness for C3: the subnet `192.168.300` (octet out of `u8` range) is
rejected with an error naming `300`, with zero probes launched. -/
theorem scan_rejects_malformed_witness :
    valid_subnet "192.168.300" = false ∧
    (scan_network net_down "192.168.300" 1 5).2 = [] ∧
    (scan_network net_down "192.168.300" 1 5).1 = .error ("Invalid subnet octet: " ++ "300") :=
  ⟨by decide,
    (scan_rejects_malformed net_down "192.168.300" 1 5 (by decide)).1,
    (scan_rejects_malformed net_down "192.168.300" 1 5 (by decide)).2.2.1 "300".data rfl rfl⟩

/-- C4: on a valid subnet the scan always succeeds, returning exactly the
records of the addresses whose discovery probe produced one, in launch order;
when no address responds the result is the empty list, not an error. -/
theorem scan_aggregates_responders (net : Net) (subnet : String) (start end_ : Nat)
    (hv : valid_subnet subnet = true) :
    (scan_network net subnet start end_).1 =
      .ok (((octet_range start end_).map (mk_ip subnet)).filterMap (check_miner_at_ip net)) ∧
    (∃ miners, (scan_network net subnet start end_).1 = .ok miners) ∧
    ((∀ i ∈ octet_range start end_, check_miner_at_ip net (mk_ip subnet i) = none) →
      (scan_network net subnet start end_).1 = .ok []) := by
  rw [scan_network_valid net subnet start end_ hv]
  dsimp only
  refine ⟨rfl, ⟨_, rfl⟩, ?_⟩
  intro h
  rw [List.filterMap_eq_nil_iff.mpr ?_]
  intro a ha
  obtain ⟨i, hi, rfl⟩ := List.mem_map.mp ha
  exact h i hi

/-- Witness for C4: scanning a dead `192.168.1` range from 1 to 3 yields the
empty list, not an error. -/
theorem scan_aggregates_responders_witness :
    valid_subnet "192.168.1" = true ∧
    (scan_network net_down "192.168.1" 1 3).1 = .ok [] :=
  ⟨by decide,
    (scan_aggregates_responders net_down "192.168.1" 1 3 (by decide)).2.2 (fun _ _ => rfl)⟩

/-- C9: with a valid subnet and an inverted range (`end_ < start`),
`scan_network` still succeeds, launching zero probes and returning the empty
list. -/
theorem scan_inverted_range (net : Net) (subnet : String) (start end_ : Nat)
    (hv : valid_subnet subnet = true) (hgt : end_ < start) :
    (scan_network net subnet start end_).1 = .ok [] ∧
    (scan_network net subnet start end_).2 = [] := by
  rw [scan_network_valid net subnet start end_ hv]
  have h0 : octet_range start end_ = [] := by
    unfold octet_range
    have hlen : end_ + 1 - start = 0 := by omega
    rw [hlen]
    rfl
  rw [h0]
  exact ⟨rfl, rfl⟩

/-- Witness for C9: scanning `192.168.1` from 5 down to 2 probes nothing and
returns the empty list. -/
theorem scan_inverted_range_witness :
    valid_subnet "192.168.1" = true ∧
    (scan_network net_down "192.168.1" 5 2).1 = .ok [] ∧
    (scan_network net_down "192.168.1" 5 2).2 = [] :=
  ⟨by decide,
    (scan_inverted_range net_down "192.168.1" 5 2 (by decide) (by decide)).1,
    (scan_inverted_range net_down "192.168.1" 5 2 (by decide) (by decide)).2⟩

/-- C10: a successful scan's records correspond, in order, to a subsequence
of the probed octets in ascending order, and every record's address is
exactly `{subnet}.{i}` for its octet `i` in the range. -/
theorem scan_result_order (net : Net) (subnet : String) (start end_ : Nat)
    (miners : List DiscoveredMiner) (hv : valid_subnet subnet = true)
    (h : (scan_network net subnet start end_).1 = .ok miners) :
    ∃ octs : List Nat, octs.Sublist (octet_range start end_) ∧
      miners.map DiscoveredMiner.ip = octs.map (mk_ip subnet) ∧
      octs.Pairwise (· < ·) ∧
      (∀ m ∈ miners, ∃ i, start ≤ i ∧ i ≤ end_ ∧ m.ip = mk_ip subnet i) := by
  rw [scan_network_valid net subnet start end_ hv] at h
  have hm : miners =
      ((octet_range start end_).map (mk_ip subnet)).filterMap (check_miner_at_ip net) := by
    dsimp only at h
    exact (Except.ok.inj h).symm
  obtain ⟨octs, hs, he⟩ := scan_filterMap_sublist net subnet (octet_range start end_)
  have hmap : miners.map DiscoveredMiner.ip = octs.map (mk_ip subnet) := by
    rw [hm]; exact he
  refine ⟨octs, hs, hmap, ?_, ?_⟩
  · exact (List.pairwise_lt_range' start (end_ + 1 - start)).sublist hs
  · intro m hmem
    have hip : m.ip ∈ octs.map (mk_ip subnet) := by
      rw [← hmap]
      exact List.mem_map_of_mem _ hmem
    obtain ⟨i, hi, hieq⟩ := List.mem_map.mp hip
    have hrange := List.mem_range'_1.mp (hs.subset hi)
    exact ⟨i, by omega, by omega, hieq.symm⟩

/-- Witness for C10: on `net_second`, scanning `10.0.0` from 1 to 3 returns
exactly the record of `10.0.0.2`, whose address is the generated one. -/
theorem scan_result_order_witness :
    valid_subnet "10.0.0" = true ∧
    (scan_network net_second "10.0.0" 1 3).1 = .ok [normalize_miner "10.0.0.2" sample_json] ∧
    (∃ octs : List Nat, octs.Sublist (octet_range 1 3) ∧
      ([normalize_miner "10.0.0.2" sample_json]).map DiscoveredMiner.ip =
        octs.map (mk_ip "10.0.0") ∧
      octs.Pairwise (· < ·) ∧
      (∀ m ∈ [normalize_miner "10.0.0.2" sample_json],
        ∃ i, 1 ≤ i ∧ i ≤ 3 ∧ m.ip = mk_ip "10.0.0" i)) :=
  ⟨by decide, rfl,
    scan_result_order net_second "10.0.0" 1 3 [normalize_miner "10.0.0.2" sample_json]
      (by decide) rfl⟩

end AxeOS
